import Mathlib

/-!
Shallow embedding of the RoModerate server routes (src/unnamed/part_000),
a Discord-integrated moderation and marketplace dashboard. Records become
Lean structures, the in-memory / relational store becomes lists, request
handlers become pure functions from (state, request, current time) to
(response, state). External HTTP calls (webhook POSTs, Roblox unban) are
driven by explicit outcome parameters. Timestamps are Int milliseconds.

Storage-layer functions (storage.getServer, storage.getBan, ...) are not in
the provided sources; they are modelled from the spec as single-entity CRUD
against a relational store (spec section 2: "Storage layer: relational
store", "REST route layer: ... single-entity CRUD against storage").
-/

namespace RoModerate

/-- A ban record (shared schema): marks a Roblox user id as disallowed in a
given server, with optional expiry and metadata written on appeal approval. -/
structure Ban where
  id : String
  serverId : String
  robloxUserId : String
  robloxUsername : String
  discordUserId : String
  reason : String
  isActive : Bool
  expiresAt : Option Int
  unbannedViaAppeal : Bool
  appealIdMeta : Option String
deriving Repr, DecidableEq

/-- An appeal record: a user-submitted request to reverse a ban. -/
structure Appeal where
  id : String
  serverId : String
  banId : String
  status : String
  appealText : String
  reviewNote : Option String
  reviewedBy : Option String
  reviewedAt : Option Int
deriving Repr, DecidableEq

/-- A server record, keeping the settings fields the routes read
(settings.robloxApiKey, settings.robloxUniverseId, settings.banAppealWebhook). -/
structure Server where
  id : String
  ownerId : String
  robloxApiKey : Option String
  robloxUniverseId : Option String
  banAppealWebhook : Option String
deriving Repr, DecidableEq

/-- The payload built by callBanAppealWebhook before the first POST and
reused verbatim on the retry. -/
structure WebhookPayload where
  appealId : String
  action : String
  status : String
  userId : String
  userRobloxId : String
  robloxUsername : String
  reason : String
  appealText : String
  reviewNote : Option String
  timestamp : Int
deriving Repr, DecidableEq

/-- Outcome of one fetch of the webhook URL: 2xx response, non-ok HTTP
status, or a thrown error (network failure / abort timeout). -/
inductive FetchOutcome where
  | ok : FetchOutcome
  | httpError : Nat → FetchOutcome
  | netError : FetchOutcome
deriving Repr, DecidableEq

/-- What a run of callBanAppealWebhook did: the payloads POSTed in order,
the delay waited before the retry (none when no retry happened), and the
returned success flag. -/
structure WebhookRun where
  posts : List WebhookPayload
  retryDelayMs : Option Nat
  success : Bool
deriving Repr, DecidableEq

/-- The payload object literal at the top of callBanAppealWebhook. -/
def mkWebhookPayload (appeal : Appeal) (ban : Ban) (action : String)
    (now : Int) : WebhookPayload :=
  { appealId := appeal.id
    action := action
    status := appeal.status
    userId := ban.discordUserId
    userRobloxId := ban.robloxUserId
    robloxUsername := ban.robloxUsername
    reason := ban.reason
    appealText := appeal.appealText
    reviewNote := appeal.reviewNote
    timestamp := now }

/-- callBanAppealWebhook: POST the payload; on any failure (non-ok status is
thrown, network errors and the 5s abort also throw) wait 1000 ms and POST
the identical payload once more; success is returned when the first POST was
ok, or when the retry response was ok; otherwise failure. The two fetch
outcomes are supplied as parameters o1 (first POST) and o2 (retry POST,
consulted only when the first failed). -/
def callBanAppealWebhook (appeal : Appeal) (ban : Ban) (action : String)
    (now : Int) (o1 o2 : FetchOutcome) : WebhookRun :=
  let payload := mkWebhookPayload appeal ban action now
  match o1 with
  | .ok => { posts := [payload], retryDelayMs := none, success := true }
  | _ =>
    match o2 with
    | .ok => { posts := [payload, payload], retryDelayMs := some 1000, success := true }
    | _ => { posts := [payload, payload], retryDelayMs := some 1000, success := false }

/-! ### Moderation store and the appeal PATCH handler -/

/-- The slice of the relational store the appeal routes touch.
Modelled from the spec: the storage layer itself is not among the provided
sources; tables become lists of records keyed by their id fields. -/
structure ModState where
  servers : List Server
  bans : List Ban
  appeals : List Appeal
deriving Repr, DecidableEq

/-- storage.getAppeal. Modelled from the spec: single-entity lookup by id. -/
def getAppeal (s : ModState) (id : String) : Option Appeal :=
  s.appeals.find? (fun a => a.id == id)

/-- storage.getServer. Modelled from the spec: single-entity lookup by id. -/
def getServer (s : ModState) (id : String) : Option Server :=
  s.servers.find? (fun sv => sv.id == id)

/-- storage.getBan. Modelled from the spec: single-entity lookup by id. -/
def getBan (s : ModState) (id : String) : Option Ban :=
  s.bans.find? (fun b => b.id == id)

/-- A partial update to a ban row, as passed to storage.updateBan: only the
fields the appeal route writes (isActive, and the metadata keys
unbannedViaAppeal / appealId). -/
structure BanPatch where
  isActive : Option Bool := none
  unbannedViaAppeal : Option Bool := none
  appealIdMeta : Option (Option String) := none
deriving Repr, DecidableEq

/-- Apply a partial ban update to one row. -/
def applyBanPatch (p : BanPatch) (b : Ban) : Ban :=
  { b with
    isActive := p.isActive.getD b.isActive
    unbannedViaAppeal := p.unbannedViaAppeal.getD b.unbannedViaAppeal
    appealIdMeta := p.appealIdMeta.getD b.appealIdMeta }

/-- storage.updateBan. Modelled from the spec: single-row update by id. -/
def updateBan (s : ModState) (id : String) (p : BanPatch) : ModState :=
  { s with bans := s.bans.map (fun b => if b.id == id then applyBanPatch p b else b) }

/-- storage.updateAppeal with the fields the PATCH route writes
(status, reviewNote, reviewedBy, reviewedAt). Modelled from the spec:
single-row update by id. -/
def updateAppeal (s : ModState) (id : String) (status : String)
    (reviewNote : Option String) (reviewedBy : String) (now : Int) : ModState :=
  { s with appeals := s.appeals.map (fun a =>
      if a.id == id then
        { a with status := status, reviewNote := reviewNote
                 reviewedBy := some reviewedBy, reviewedAt := some now }
      else a) }

/-- Response of PATCH /api/appeals/:id: HTTP status, and on 200 the
banUpdated / robloxUnbanned flags merged into the appeal JSON. -/
structure PatchAppealResult where
  httpStatus : Nat
  banUpdated : Bool
  robloxUnbanned : Bool
deriving Repr, DecidableEq

/-- PATCH /api/appeals/:id. Looks up the appeal (404 when absent), requires
the requester to own the appeal's server (403), looks up the associated ban
(404 when absent). When the supplied status is "approved" it deactivates the
ban, calls the Roblox unban API when the server settings carry both
robloxApiKey and robloxUniverseId (outcome supplied as robloxOk), and writes
unban metadata on the ban. It then unconditionally writes status, reviewNote,
reviewedBy and reviewedAt on the appeal and answers 200 with
banUpdated = (status == "approved"). No check of the appeal's current status
is performed anywhere on this path. -/
def patchAppeal (s : ModState) (appealId requesterId : String)
    (status : String) (reviewNote : Option String) (robloxOk : Bool)
    (now : Int) : PatchAppealResult × ModState :=
  match getAppeal s appealId with
  | none => ({ httpStatus := 404, banUpdated := false, robloxUnbanned := false }, s)
  | some appeal =>
    match getServer s appeal.serverId with
    | none => ({ httpStatus := 403, banUpdated := false, robloxUnbanned := false }, s)
    | some server =>
      if server.ownerId != requesterId then
        ({ httpStatus := 403, banUpdated := false, robloxUnbanned := false }, s)
      else
        match getBan s appeal.banId with
        | none => ({ httpStatus := 404, banUpdated := false, robloxUnbanned := false }, s)
        | some ban =>
          let robloxConfigured := server.robloxApiKey.isSome && server.robloxUniverseId.isSome
          let s1 :=
            if status == "approved" then
              let sA := updateBan s ban.id { isActive := some false }
              updateBan sA ban.id
                { unbannedViaAppeal := some true, appealIdMeta := some (some appeal.id) }
            else s
          let s2 := updateAppeal s1 appealId status reviewNote requesterId now
          ({ httpStatus := 200
             banUpdated := status == "approved"
             robloxUnbanned := status == "approved" && robloxConfigured && robloxOk }, s2)

/-! ### Marketplace transactions and escrow -/

/-- A marketplace transaction row, keeping the parties the escrow route
checks. -/
structure MarketTransaction where
  id : String
  buyerId : String
  sellerId : String
deriving Repr, DecidableEq

/-- An escrow row: a marketplace transaction's held-funds record. -/
structure Escrow where
  id : String
  transactionId : String
  status : String
  amount : Int
deriving Repr, DecidableEq

/-- The slice of the relational store the escrow route touches.
Modelled from the spec: tables become lists of records keyed by id. -/
structure MarketState where
  transactions : List MarketTransaction
  escrows : List Escrow
deriving Repr, DecidableEq

/-- storage.getEscrow. Modelled from the spec: single-entity lookup by id. -/
def getEscrow (s : MarketState) (id : String) : Option Escrow :=
  s.escrows.find? (fun e => e.id == id)

/-- storage.getTransaction. Modelled from the spec: single-entity lookup by
id. -/
def getTransaction (s : MarketState) (id : String) : Option MarketTransaction :=
  s.transactions.find? (fun t => t.id == id)

/-- The caller-supplied PATCH body (req.body), passed to
storage.updateEscrow untouched: any subset of the escrow's mutable columns. -/
structure EscrowPatch where
  status : Option String := none
  amount : Option Int := none
deriving Repr, DecidableEq

/-- Apply the caller-supplied body to one escrow row as-is. -/
def applyEscrowPatch (p : EscrowPatch) (e : Escrow) : Escrow :=
  { e with status := p.status.getD e.status, amount := p.amount.getD e.amount }

/-- storage.updateEscrow. Modelled from the spec: single-row update by id. -/
def updateEscrow (s : MarketState) (id : String) (p : EscrowPatch) : MarketState :=
  { s with escrows := s.escrows.map (fun e =>
      if e.id == id then applyEscrowPatch p e else e) }

/-- PATCH /api/marketplace/escrow/:id. Looks up the escrow (404 when
absent), then its transaction; answers 403 when the transaction is absent or
the requester is neither its seller nor its buyer; otherwise applies the
caller-supplied body to the escrow row via storage.updateEscrow with no
inspection of the body and answers 200. -/
def patchEscrow (s : MarketState) (escrowId requesterId : String)
    (body : EscrowPatch) : Nat × MarketState :=
  match getEscrow s escrowId with
  | none => (404, s)
  | some escrow =>
    match getTransaction s escrow.transactionId with
    | none => (403, s)
    | some t =>
      if t.sellerId != requesterId && t.buyerId != requesterId then (403, s)
      else (200, updateEscrow s escrowId body)

/-! ### In-game ban check with lazy expiry -/

/-- storage.getBanByRobloxUserId. Modelled from the spec: the active ban
record for the given server and Roblox user id, when one exists (glossary:
a ban is a "record marking a Roblox user id as disallowed in a given
server"; "Ban: active → inactive"). -/
def getBanByRobloxUserId (bans : List Ban) (serverId robloxUserId : String) :
    Option Ban :=
  bans.find? (fun b => b.serverId == serverId && b.robloxUserId == robloxUserId
    && b.isActive)

/-- storage.updateBan on a bare ban table (the check-ban route only touches
bans). Modelled from the spec: single-row update by id. -/
def updateBanList (bans : List Ban) (id : String) (p : BanPatch) : List Ban :=
  bans.map (fun b => if b.id == id then applyBanPatch p b else b)

/-- Response of GET /api/game/check-ban/:robloxUserId (the fields the claims
concern). -/
structure CheckBanResult where
  isBanned : Bool
  banId : Option String
deriving Repr, DecidableEq

/-- GET /api/game/check-ban/:robloxUserId: look up the ban for this server
and Roblox user; when absent answer isBanned = false; when its expiresAt is
set and earlier than now, mark the ban inactive (lazy expiry) and answer
isBanned = false; otherwise answer isBanned = true with the ban's id. -/
def checkBan (bans : List Ban) (serverId robloxUserId : String) (now : Int) :
    CheckBanResult × List Ban :=
  match getBanByRobloxUserId bans serverId robloxUserId with
  | none => ({ isBanned := false, banId := none }, bans)
  | some ban =>
    match ban.expiresAt with
    | some t =>
      if t < now then
        ({ isBanned := false, banId := none },
         updateBanList bans ban.id { isActive := some false })
      else ({ isBanned := true, banId := some ban.id }, bans)
    | none => ({ isBanned := true, banId := some ban.id }, bans)

/-! ### Discord OAuth CSRF nonce -/

/-- Decoded contents of the base64url state parameter built by
/api/auth/discord: a random nonce plus the carried invite and returnTo. -/
structure StateData where
  nonce : String
  invite : Option String
  returnTo : Option String
deriving Repr, DecidableEq

/-- The state query parameter as the callback sees it: absent, undecodable
(the base64url/JSON decode throws), or decoded. -/
inductive StateParam where
  | missing : StateParam
  | malformed : StateParam
  | valid : StateData → StateParam
deriving Repr, DecidableEq

/-- Look a nonce up in the oauthStates map (nonce → expiresAt). -/
def lookupNonce (states : List (String × Int)) (nonce : String) : Option Int :=
  (states.find? (fun p => p.fst == nonce)).map Prod.snd

/-- oauthStates.delete. -/
def deleteNonce (states : List (String × Int)) (nonce : String) :
    List (String × Int) :=
  states.filter (fun p => p.fst != nonce)

/-- GET /api/auth/discord: issue a fresh nonce into oauthStates with a
10-minute expiry (oauthStates.set nonce, expiresAt = now + 10 * 60 * 1000). -/
def issueOauthState (states : List (String × Int)) (nonce : String)
    (now : Int) : List (String × Int) :=
  (nonce, now + 10 * 60 * 1000) :: deleteNonce states nonce

/-- Outcome of the callback up to the code-for-token exchange. -/
inductive CallbackOutcome where
  | redirectError : String → CallbackOutcome
  | tokenExchange : Option String → Option String → CallbackOutcome
deriving Repr, DecidableEq

/-- Whether the callback reached the token exchange. -/
def CallbackOutcome.proceeds : CallbackOutcome → Bool
  | .tokenExchange _ _ => true
  | .redirectError _ => false

/-- GET /api/auth/discord/callback up to the token exchange: redirect on an
OAuth error, missing code, missing state or undecodable state; then verify
the decoded nonce against oauthStates (absent → invalid_state; expired →
delete the nonce and state_expired); on success delete the nonce and proceed
to the token exchange carrying the invite and returnTo from the state. -/
def discordCallback (states : List (String × Int)) (oauthError : Option String)
    (code : Option String) (state : StateParam) (now : Int) :
    CallbackOutcome × List (String × Int) :=
  match oauthError with
  | some _ => (.redirectError "oauth_failed", states)
  | none =>
    match code with
    | none => (.redirectError "missing_code", states)
    | some _ =>
      match state with
      | .missing => (.redirectError "missing_state", states)
      | .malformed => (.redirectError "invalid_state_format", states)
      | .valid sd =>
        match lookupNonce states sd.nonce with
        | none => (.redirectError "invalid_state", states)
        | some expiresAt =>
          if expiresAt < now then
            (.redirectError "state_expired", deleteNonce states sd.nonce)
          else
            (.tokenExchange sd.invite sd.returnTo, deleteNonce states sd.nonce)

/-! ### Moderator shifts -/

/-- A shift record (the metrics counters are omitted: no claim concerns
them). -/
structure Shift where
  id : String
  serverId : String
  userId : String
  startTime : Int
  endTime : Option Int
  status : String
deriving Repr, DecidableEq

/-- The slice of the store the shift routes touch: servers, server
memberships (userId, serverId) and shifts. Modelled from the spec. -/
structure ShiftState where
  servers : List Server
  members : List (String × String)
  shifts : List Shift
deriving Repr, DecidableEq

/-- storage.getServer on the shift store. Modelled from the spec:
single-entity lookup by id. -/
def getServerS (s : ShiftState) (id : String) : Option Server :=
  s.servers.find? (fun sv => sv.id == id)

/-- storage.getServerMemberByUserAndServer. Modelled from the spec:
membership lookup, truthy when the user is a member of the server. -/
def isServerMember (s : ShiftState) (userId serverId : String) : Bool :=
  s.members.contains (userId, serverId)

/-- storage.getActiveShiftByUserId. Modelled from the spec: the user's shift
with status "active" on that server, when one exists. -/
def getActiveShiftByUserId (s : ShiftState) (userId serverId : String) :
    Option Shift :=
  s.shifts.find? (fun sh => sh.userId == userId && sh.serverId == serverId
    && sh.status == "active")

/-- The shift row storage.createShift inserts for a start request. -/
def newShift (newId sid requesterId : String) (now : Int) : Shift :=
  { id := newId, serverId := sid, userId := requesterId,
    startTime := now, endTime := none, status := "active" }

/-- POST /api/shifts/start: requires serverId in the body (400), an existing
server (404) and the requester to own the server or be a member (403);
refuses with 400 when the requester already has an active shift on that
server; otherwise inserts a new shift with status "active" starting now.
The fresh row id is supplied as newId. -/
def shiftsStart (s : ShiftState) (requesterId : String)
    (serverId : Option String) (newId : String) (now : Int) :
    Nat × ShiftState :=
  match serverId with
  | none => (400, s)
  | some sid =>
    match getServerS s sid with
    | none => (404, s)
    | some server =>
      if !(server.ownerId == requesterId) && !(isServerMember s requesterId sid) then
        (403, s)
      else
        match getActiveShiftByUserId s requesterId sid with
        | some _ => (400, s)
        | none =>
          (200, { s with shifts := s.shifts ++ [newShift newId sid requesterId now] })

/-- POST /api/servers/:serverId/shifts/start: requires an existing server
owned by the requester (403 otherwise); refuses with 400 when the requester
already has an active shift on that server; otherwise inserts a new shift
with status "active" starting now. -/
def serverShiftsStart (s : ShiftState) (requesterId serverId newId : String)
    (now : Int) : Nat × ShiftState :=
  match getServerS s serverId with
  | none => (403, s)
  | some server =>
    if server.ownerId != requesterId then (403, s)
    else
      match getActiveShiftByUserId s requesterId serverId with
      | some _ => (400, s)
      | none =>
        (200, { s with shifts := s.shifts ++ [newShift newId serverId requesterId now] })

/-- storage.updateShift with the fields the end route writes
(endTime, status := "completed"). Modelled from the spec: single-row update
by id. -/
def updateShiftEnd (shifts : List Shift) (id : String) (endTime : Int) :
    List Shift :=
  shifts.map (fun x =>
    if x.id == id then { x with endTime := some endTime, status := "completed" }
    else x)

/-- Response of POST /api/shifts/end: the HTTP status, and on 200 the
duration broadcast to WebSocket clients (endTime minus the shift's
startTime). -/
structure EndShiftResult where
  httpStatus : Nat
  duration : Option Int
deriving Repr, DecidableEq

/-- POST /api/shifts/end: requires serverId in the body (400), an existing
server (404) and the requester to own the server or be a member (403); 404
with nothing changed when the requester has no active shift on that server;
otherwise sets endTime := now and status := "completed" on the active shift
and broadcasts the duration now - startTime. -/
def shiftsEnd (s : ShiftState) (requesterId : String)
    (serverId : Option String) (now : Int) : EndShiftResult × ShiftState :=
  match serverId with
  | none => ({ httpStatus := 400, duration := none }, s)
  | some sid =>
    match getServerS s sid with
    | none => ({ httpStatus := 404, duration := none }, s)
    | some server =>
      if !(server.ownerId == requesterId) && !(isServerMember s requesterId sid) then
        ({ httpStatus := 403, duration := none }, s)
      else
        match getActiveShiftByUserId s requesterId sid with
        | none => ({ httpStatus := 404, duration := none }, s)
        | some sh =>
          ({ httpStatus := 200, duration := some (now - sh.startTime) },
           { s with shifts := updateShiftEnd s.shifts sh.id now })

/-- The number of active shifts a user has on a server. -/
def activeCount (shifts : List Shift) (userId serverId : String) : Nat :=
  (shifts.filter (fun sh => sh.userId == userId && sh.serverId == serverId
    && sh.status == "active")).length

/-! ### Sessions -/

/-- A user record (the fields the session layer needs). -/
structure User where
  id : String
  username : String
deriving Repr, DecidableEq

/-- A value of the in-memory sessions map: the user id and the expiry
instant. -/
structure SessionEntry where
  userId : String
  expiresAt : Int
deriving Repr, DecidableEq

/-- The session layer's state: the token → session map and the user table. -/
structure SessionState where
  sessions : List (String × SessionEntry)
  users : List User
deriving Repr, DecidableEq

/-- The map value createSession stores for a fresh token: the user id with a
7-day expiry (now + 7 * 24 * 60 * 60 * 1000). -/
def createSessionEntry (userId : String) (now : Int) : SessionEntry :=
  { userId := userId, expiresAt := now + 7 * 24 * 60 * 60 * 1000 }

/-- sessions.get. -/
def lookupSession (sessions : List (String × SessionEntry)) (token : String) :
    Option SessionEntry :=
  (sessions.find? (fun p => p.fst == token)).map Prod.snd

/-- sessions.delete. -/
def deleteSession (sessions : List (String × SessionEntry)) (token : String) :
    List (String × SessionEntry) :=
  sessions.filter (fun p => p.fst != token)

/-- storage.getUser. Modelled from the spec: single-entity lookup by id. -/
def getUser (users : List User) (id : String) : Option User :=
  users.find? (fun u => u.id == id)

/-- getUserFromSession: no cookie → null; token absent from the map or past
its expiry → delete the map entry and null; otherwise storage.getUser on the
session's user id. -/
def getUserFromSession (st : SessionState) (token : Option String)
    (now : Int) : Option User × SessionState :=
  match token with
  | none => (none, st)
  | some tk =>
    match lookupSession st.sessions tk with
    | none => (none, { st with sessions := deleteSession st.sessions tk })
    | some entry =>
      if entry.expiresAt < now then
        (none, { st with sessions := deleteSession st.sessions tk })
      else (getUser st.users entry.userId, st)

/-- Result of the requireAuth middleware: 401, or the request proceeds with
req.user set. -/
inductive AuthResult where
  | unauthorized401 : AuthResult
  | authed : User → AuthResult
deriving Repr, DecidableEq

/-- requireAuth: reads the session cookie, answers 401 exactly when
getUserFromSession yields no user. -/
def requireAuth (st : SessionState) (token : Option String) (now : Int) :
    AuthResult × SessionState :=
  match getUserFromSession st token now with
  | (none, st2) => (.unauthorized401, st2)
  | (some u, st2) => (.authed u, st2)

/-! ### Concrete fixtures used by witnesses -/

/-- A concrete server owned by "owner", with no Roblox API settings and no
appeal webhook configured. -/
def exServer : Server :=
  { id := "s1", ownerId := "owner", robloxApiKey := none
    robloxUniverseId := none, banAppealWebhook := none }

/-- A concrete active, non-expiring ban on server "s1". -/
def exActiveBan : Ban :=
  { id := "b1", serverId := "s1", robloxUserId := "777"
    robloxUsername := "player", discordUserId := "d1", reason := "rules"
    isActive := true, expiresAt := none, unbannedViaAppeal := false
    appealIdMeta := none }

/-- A concrete pending appeal against ban "b1". -/
def exPendingAppeal : Appeal :=
  { id := "a1", serverId := "s1", banId := "b1", status := "pending"
    appealText := "please", reviewNote := none, reviewedBy := none
    reviewedAt := none }

/-- A concrete moderation store: one server, one active ban, one pending
appeal. -/
def exModState : ModState :=
  { servers := [exServer], bans := [exActiveBan], appeals := [exPendingAppeal] }

/-- A concrete active ban on server "s1" that expired at time 10. -/
def exExpiredBan : Ban :=
  { id := "b2", serverId := "s1", robloxUserId := "777"
    robloxUsername := "player", discordUserId := "d1", reason := "rules"
    isActive := true, expiresAt := some 10, unbannedViaAppeal := false
    appealIdMeta := none }

/-- A concrete active shift of user "owner" on server "s1", started at 100. -/
def exActiveShift : Shift :=
  { id := "sh1", serverId := "s1", userId := "owner", startTime := 100
    endTime := none, status := "active" }

/-- A concrete shift store: one server, no members, one active shift. -/
def exShiftState : ShiftState :=
  { servers := [exServer], members := [], shifts := [exActiveShift] }

/-- A concrete shift store with no shifts at all. -/
def exEmptyShiftState : ShiftState :=
  { servers := [exServer], members := [], shifts := [] }

/-- A concrete user. -/
def exUser : User :=
  { id := "u1", username := "alice" }

/-- A concrete session store: one token for user "u1" created at 0, one
user. -/
def exSessionState : SessionState :=
  { sessions := [("tok", createSessionEntry "u1" 0)], users := [exUser] }

/-- A concrete marketplace transaction between buyer "alice" and seller
"bob". -/
def exTransaction : MarketTransaction :=
  { id := "t1", buyerId := "alice", sellerId := "bob" }

/-- A concrete held escrow row for transaction "t1". -/
def exEscrow : Escrow :=
  { id := "e1", transactionId := "t1", status := "held", amount := 50 }

/-- A concrete marketplace store: one transaction, one held escrow. -/
def exMarketState : MarketState :=
  { transactions := [exTransaction], escrows := [exEscrow] }

end RoModerate

namespace RoModerate

/-- C3: the appeal webhook performs at most one retry: a failed first POST is
followed by exactly one more POST of the identical payload after a fixed
1-second delay, a successful first POST is never retried, and the call
succeeds iff the first or the retry POST returned ok. -/
theorem C3_webhook_single_retry (appeal : Appeal) (ban : Ban) (action : String)
    (now : Int) (o1 o2 : FetchOutcome) :
    let r := callBanAppealWebhook appeal ban action now o1 o2
    let payload := mkWebhookPayload appeal ban action now
    r.posts.length ≤ 2 ∧
    (o1 = .ok → r.posts = [payload] ∧ r.retryDelayMs = none) ∧
    (o1 ≠ .ok → r.posts = [payload, payload] ∧ r.retryDelayMs = some 1000) ∧
    (r.success = true ↔ (o1 = .ok ∨ o2 = .ok)) := by
  cases o1 <;> cases o2 <;>
    simp [callBanAppealWebhook]

/-- Every appeal row carrying the patched id in the post-state of
updateAppeal holds the written status and review fields. -/
lemma appeals_after_update (s : ModState) (id status : String)
    (note : Option String) (rb : String) (now : Int) :
    ∀ a ∈ (updateAppeal s id status note rb now).appeals, a.id = id →
      a.status = status ∧ a.reviewNote = note ∧
      a.reviewedBy = some rb ∧ a.reviewedAt = some now := by
  intro a ha hid
  simp only [updateAppeal, List.mem_map] at ha
  obtain ⟨a0, _, rfl⟩ := ha
  by_cases h : (a0.id == id) = true
  · simp [h]
  · simp only [h, if_neg, Bool.false_eq_true, if_false] at hid ⊢
    exact absurd hid (by simpa using h)

/-- Every ban row carrying the deactivated ban's id, after the two
updateBan calls of the approval branch, is inactive and carries the unban
metadata. -/
lemma bans_after_approval (s : ModState) (banId appealId : String) :
    ∀ b ∈ (updateBan (updateBan s banId { isActive := some false }) banId
        { unbannedViaAppeal := some true,
          appealIdMeta := some (some appealId) }).bans, b.id = banId →
      b.isActive = false ∧ b.unbannedViaAppeal = true ∧
      b.appealIdMeta = some appealId := by
  intro b hb hid
  simp only [updateBan, List.map_map, List.mem_map, Function.comp] at hb
  obtain ⟨b0, _, rfl⟩ := hb
  by_cases h : b0.id = banId
  · simp [Function.comp, h, applyBanPatch]
  · have hbeq : (b0.id == banId) = false := by simpa using h
    simp only [Function.comp, hbeq, Bool.false_eq_true, if_false] at hid
    exact absurd hid h

/-- C3 witness: the theorem evaluated at a concrete appeal, ban and outcome
pair (first POST fails with HTTP 500, retry succeeds). -/
theorem C3_webhook_single_retry_witness :
    let appeal : Appeal :=
      { id := "a1", serverId := "s1", banId := "b1", status := "pending"
        appealText := "please", reviewNote := none, reviewedBy := none
        reviewedAt := none }
    let ban : Ban :=
      { id := "b1", serverId := "s1", robloxUserId := "777"
        robloxUsername := "player", discordUserId := "d1", reason := "rules"
        isActive := true, expiresAt := none, unbannedViaAppeal := false
        appealIdMeta := none }
    let r := callBanAppealWebhook appeal ban "created" 0 (.httpError 500) .ok
    let payload := mkWebhookPayload appeal ban "created" 0
    r.posts.length ≤ 2 ∧
    ((FetchOutcome.httpError 500) = .ok → r.posts = [payload] ∧ r.retryDelayMs = none) ∧
    ((FetchOutcome.httpError 500) ≠ .ok → r.posts = [payload, payload] ∧ r.retryDelayMs = some 1000) ∧
    (r.success = true ↔ ((FetchOutcome.httpError 500) = .ok ∨ FetchOutcome.ok = .ok)) := by
  exact C3_webhook_single_retry _ _ "created" 0 (.httpError 500) .ok

end RoModerate

namespace RoModerate

/-- C1 counterexample: an appeal that is already "approved" is transitioned
again by a later PATCH — the handler answers 200 and overwrites status and
review fields, since it never inspects the appeal's current status. -/
theorem C1_counterexample :
    let server : Server :=
      { id := "s1", ownerId := "owner", robloxApiKey := none
        robloxUniverseId := none, banAppealWebhook := none }
    let ban : Ban :=
      { id := "b1", serverId := "s1", robloxUserId := "777"
        robloxUsername := "player", discordUserId := "d1", reason := "rules"
        isActive := false, expiresAt := none, unbannedViaAppeal := true
        appealIdMeta := some "a1" }
    let appeal : Appeal :=
      { id := "a1", serverId := "s1", banId := "b1", status := "approved"
        appealText := "please", reviewNote := some "ok"
        reviewedBy := some "owner", reviewedAt := some 50 }
    let s : ModState := { servers := [server], bans := [ban], appeals := [appeal] }
    let r := patchAppeal s "a1" "owner" "rejected" none false 100
    (getAppeal s "a1").map Appeal.status = some "approved" ∧
    r.fst.httpStatus = 200 ∧
    (getAppeal r.snd "a1").map Appeal.status = some "rejected" ∧
    (getAppeal r.snd "a1").map Appeal.reviewedAt = some (some 100) := by
  decide

/-- C1 amended: PATCH /api/appeals/:id sets the appeal's status to the
supplied value and rewrites its review fields whenever the requester owns
the appeal's server and the associated ban exists, with no check of the
appeal's current status — in particular an appeal already in a terminal
status is transitioned again by a later PATCH. -/
theorem C1_patch_unguarded (s : ModState) (appealId requesterId status : String)
    (reviewNote : Option String) (robloxOk : Bool) (now : Int)
    (appeal : Appeal) (server : Server) (ban : Ban)
    (hA : getAppeal s appealId = some appeal)
    (hS : getServer s appeal.serverId = some server)
    (hOwn : server.ownerId = requesterId)
    (hB : getBan s appeal.banId = some ban) :
    (patchAppeal s appealId requesterId status reviewNote robloxOk now).fst.httpStatus = 200 ∧
    ∀ a ∈ (patchAppeal s appealId requesterId status reviewNote robloxOk now).snd.appeals,
      a.id = appealId →
        a.status = status ∧ a.reviewNote = reviewNote ∧
        a.reviewedBy = some requesterId ∧ a.reviewedAt = some now := by
  refine ⟨by simp [patchAppeal, hA, hS, hOwn, hB], ?_⟩
  intro a ha hid
  simp only [patchAppeal, hA, hS, hOwn, hB, bne_self_eq_false, Bool.false_eq_true,
    if_false] at ha
  exact appeals_after_update _ appealId status reviewNote requesterId now a ha hid

/-- C1 witness: the amended theorem applied to a concrete pending appeal
approved by the server owner. -/
theorem C1_patch_unguarded_witness :
    (patchAppeal exModState "a1" "owner" "approved" none false 100).fst.httpStatus = 200 ∧
    ∀ a ∈ (patchAppeal exModState "a1" "owner" "approved" none false 100).snd.appeals,
      a.id = "a1" →
        a.status = "approved" ∧ a.reviewNote = none ∧
        a.reviewedBy = some "owner" ∧ a.reviewedAt = some (100 : Int) := by
  exact C1_patch_unguarded exModState "a1" "owner" "approved" none false 100
    exPendingAppeal exServer exActiveBan
    (by decide) (by decide) (by decide) (by decide)

/-- C2: approving an appeal deactivates the associated ban: when the
requester owns the appeal's server, the ban exists, and the supplied status
is "approved", every ban row with the associated ban's id is inactive in the
post-state and the response reports banUpdated = true. -/
theorem C2_approval_deactivates_ban (s : ModState)
    (appealId requesterId : String) (reviewNote : Option String)
    (robloxOk : Bool) (now : Int)
    (appeal : Appeal) (server : Server) (ban : Ban)
    (hA : getAppeal s appealId = some appeal)
    (hS : getServer s appeal.serverId = some server)
    (hOwn : server.ownerId = requesterId)
    (hB : getBan s appeal.banId = some ban) :
    (patchAppeal s appealId requesterId "approved" reviewNote robloxOk now).fst.banUpdated = true ∧
    (patchAppeal s appealId requesterId "approved" reviewNote robloxOk now).fst.httpStatus = 200 ∧
    ∀ b ∈ (patchAppeal s appealId requesterId "approved" reviewNote robloxOk now).snd.bans,
      b.id = ban.id → b.isActive = false := by
  refine ⟨by simp [patchAppeal, hA, hS, hOwn, hB],
    by simp [patchAppeal, hA, hS, hOwn, hB], ?_⟩
  intro b hb hid
  simp only [patchAppeal, hA, hS, hOwn, hB, bne_self_eq_false, Bool.false_eq_true,
    if_false, updateAppeal, beq_self_eq_true, if_true] at hb
  exact (bans_after_approval s ban.id appeal.id b hb hid).1

/-- C2 witness: the theorem applied to a concrete pending appeal approved
by the server owner; the associated ban ends inactive. -/
theorem C2_approval_deactivates_ban_witness :
    (patchAppeal exModState "a1" "owner" "approved" none false 100).fst.banUpdated = true ∧
    (patchAppeal exModState "a1" "owner" "approved" none false 100).fst.httpStatus = 200 ∧
    ∀ b ∈ (patchAppeal exModState "a1" "owner" "approved" none false 100).snd.bans,
      b.id = exActiveBan.id → b.isActive = false := by
  exact C2_approval_deactivates_ban exModState "a1" "owner" none false 100
    exPendingAppeal exServer exActiveBan
    (by decide) (by decide) (by decide) (by decide)

end RoModerate

namespace RoModerate

/-- Every escrow row carrying the patched id, after updateEscrow with a body
whose status field is set, holds that status. -/
lemma escrow_status_after_update (s : MarketState) (id : String)
    (p : EscrowPatch) (st : String) (hp : p.status = some st) :
    ∀ e ∈ (updateEscrow s id p).escrows, e.id = id → e.status = st := by
  intro e he hid
  simp only [updateEscrow, List.mem_map] at he
  obtain ⟨e0, _, rfl⟩ := he
  by_cases h : e0.id = id
  · simp [h, applyEscrowPatch, hp]
  · have hbeq : (e0.id == id) = false := by simpa using h
    simp only [hbeq, Bool.false_eq_true, if_false] at hid
    exact absurd hid h

/-- C4: PATCH /api/marketplace/escrow/:id mutates the escrow iff the
requester is the buyer or the seller of the escrow's transaction: any other
requester gets 403 with the store unchanged, and an authorized requester
gets 200 with the caller-supplied body applied to the escrow row as-is
(the body is arbitrary — no state-machine check on the resulting status). -/
theorem C4_escrow_patch_authorization (s : MarketState)
    (escrowId requesterId : String) (body : EscrowPatch)
    (escrow : Escrow) (t : MarketTransaction)
    (hE : getEscrow s escrowId = some escrow)
    (hT : getTransaction s escrow.transactionId = some t) :
    (requesterId ≠ t.buyerId ∧ requesterId ≠ t.sellerId →
      patchEscrow s escrowId requesterId body = (403, s)) ∧
    ((requesterId = t.buyerId ∨ requesterId = t.sellerId) →
      patchEscrow s escrowId requesterId body = (200, updateEscrow s escrowId body)) := by
  constructor
  · rintro ⟨hb, hs⟩
    have hb' : t.buyerId ≠ requesterId := fun h => hb h.symm
    have hs' : t.sellerId ≠ requesterId := fun h => hs h.symm
    simp [patchEscrow, hE, hT, hb', hs']
  · rintro (h | h) <;> subst h <;> simp [patchEscrow, hE, hT]

/-- C4 witness: on a concrete store, a third party's PATCH answers 403 and
leaves the store unchanged, while the buyer's PATCH answers 200 and applies
the supplied body. -/
theorem C4_escrow_patch_authorization_witness :
    (patchEscrow exMarketState "e1" "carol" { status := some "disputed" } =
      (403, exMarketState)) ∧
    (patchEscrow exMarketState "e1" "alice" { status := some "confirmed" } =
      (200, updateEscrow exMarketState "e1" { status := some "confirmed" })) := by
  refine ⟨?_, ?_⟩
  · exact (C4_escrow_patch_authorization exMarketState "e1" "carol"
      { status := some "disputed" } exEscrow exTransaction
      (by decide) (by decide)).1 ⟨by decide, by decide⟩
  · exact (C4_escrow_patch_authorization exMarketState "e1" "alice"
      { status := some "confirmed" } exEscrow exTransaction
      (by decide) (by decide)).2 (Or.inl (by decide))

/-- C5 counterexample: the seller — not the buyer — of the transaction
releases the escrow: PATCH with body status "released" from "bob" (the
seller) answers 200 and the held escrow row becomes "released", refuting
"released on buyer confirmation ... not released by any other party's
action". -/
theorem C5_counterexample :
    exTransaction.sellerId = "bob" ∧ exTransaction.buyerId ≠ "bob" ∧
    exEscrow.status = "held" ∧
    (patchEscrow exMarketState "e1" "bob" { status := some "released" }).fst = 200 ∧
    ((patchEscrow exMarketState "e1" "bob"
        { status := some "released" }).snd.escrows.map Escrow.status) = ["released"] := by
  decide

/-- C5 amended: the escrow transitions to "released" when either authorized
party — the buyer or the seller of its transaction — supplies status
"released" in the PATCH body; buyer confirmation is one such action, but
release is not restricted to the buyer. -/
theorem C5_release_by_either_party (s : MarketState)
    (escrowId requesterId : String) (escrow : Escrow) (t : MarketTransaction)
    (hE : getEscrow s escrowId = some escrow)
    (hT : getTransaction s escrow.transactionId = some t)
    (hAuth : requesterId = t.buyerId ∨ requesterId = t.sellerId) :
    (patchEscrow s escrowId requesterId { status := some "released" }).fst = 200 ∧
    ∀ e ∈ (patchEscrow s escrowId requesterId
        { status := some "released" }).snd.escrows,
      e.id = escrowId → e.status = "released" := by
  have h200 : patchEscrow s escrowId requesterId { status := some "released" } =
      (200, updateEscrow s escrowId { status := some "released" }) := by
    rcases hAuth with h | h <;> subst h <;> simp [patchEscrow, hE, hT]
  rw [h200]
  exact ⟨rfl, escrow_status_after_update s escrowId _ "released" rfl⟩

/-- C5 witness: the amended theorem applied to the concrete store with the
buyer "alice" releasing the escrow. -/
theorem C5_release_by_either_party_witness :
    (patchEscrow exMarketState "e1" "alice" { status := some "released" }).fst = 200 ∧
    ∀ e ∈ (patchEscrow exMarketState "e1" "alice"
        { status := some "released" }).snd.escrows,
      e.id = "e1" → e.status = "released" := by
  exact C5_release_by_either_party exMarketState "e1" "alice" exEscrow exTransaction
    (by decide) (by decide) (Or.inl (by decide))

end RoModerate

namespace RoModerate

/-- Every ban row carrying the expired ban's id, after the lazy-expiry
update, is inactive. -/
lemma bans_after_lazy_expiry (bans : List Ban) (id : String) :
    ∀ b ∈ updateBanList bans id { isActive := some false }, b.id = id →
      b.isActive = false := by
  intro b hb hid
  simp only [updateBanList, List.mem_map] at hb
  obtain ⟨b0, _, rfl⟩ := hb
  by_cases h : b0.id = id
  · simp [h, applyBanPatch]
  · have hbeq : (b0.id == id) = false := by simpa using h
    simp only [hbeq, Bool.false_eq_true, if_false] at hid
    exact absurd hid h

/-- C6: a ban with expiresAt in the past is lazily expired on read:
check-ban answers isBanned = false and marks the ban row inactive; a ban
with no expiresAt, or with expiresAt in the future, is reported
isBanned = true with the ban table unchanged. -/
theorem C6_lazy_expiry_on_read (bans : List Ban)
    (serverId robloxUserId : String) (now : Int) (ban : Ban)
    (hB : getBanByRobloxUserId bans serverId robloxUserId = some ban) :
    (∀ t, ban.expiresAt = some t → t < now →
      (checkBan bans serverId robloxUserId now).fst.isBanned = false ∧
      ∀ b ∈ (checkBan bans serverId robloxUserId now).snd,
        b.id = ban.id → b.isActive = false) ∧
    (ban.expiresAt = none →
      checkBan bans serverId robloxUserId now =
        ({ isBanned := true, banId := some ban.id }, bans)) ∧
    (∀ t, ban.expiresAt = some t → now < t →
      checkBan bans serverId robloxUserId now =
        ({ isBanned := true, banId := some ban.id }, bans)) := by
  refine ⟨?_, ?_, ?_⟩
  · intro t ht hlt
    refine ⟨by simp [checkBan, hB, ht, hlt], ?_⟩
    intro b hb hid
    simp only [checkBan, hB, ht, hlt, if_true] at hb
    exact bans_after_lazy_expiry bans ban.id b hb hid
  · intro h0
    simp [checkBan, hB, h0]
  · intro t ht hgt
    have hnlt : ¬ t < now := not_lt.mpr (le_of_lt hgt)
    simp [checkBan, hB, ht, hnlt]

/-- C6 witness: the theorem applied to a concrete expired ban (expiry 10,
read at 100: reported unbanned, row deactivated) and a concrete
non-expiring ban (read at 100: reported banned, table unchanged). -/
theorem C6_lazy_expiry_on_read_witness :
    ((checkBan [exExpiredBan] "s1" "777" 100).fst.isBanned = false ∧
      ∀ b ∈ (checkBan [exExpiredBan] "s1" "777" 100).snd,
        b.id = exExpiredBan.id → b.isActive = false) ∧
    (checkBan [exActiveBan] "s1" "777" 100 =
      ({ isBanned := true, banId := some exActiveBan.id }, [exActiveBan])) := by
  refine ⟨?_, ?_⟩
  · exact (C6_lazy_expiry_on_read [exExpiredBan] "s1" "777" 100 exExpiredBan
      (by decide)).1 10 (by decide) (by decide)
  · exact (C6_lazy_expiry_on_read [exActiveBan] "s1" "777" 100 exActiveBan
      (by decide)).2.1 (by decide)

/-- Deleting a nonce removes it from the oauthStates map: a later lookup of
the same nonce finds nothing. -/
lemma lookupNonce_deleteNonce (states : List (String × Int)) (nonce : String) :
    lookupNonce (deleteNonce states nonce) nonce = none := by
  have h : (deleteNonce states nonce).find? (fun p => p.fst == nonce) = none := by
    rw [List.find?_eq_none]
    intro p hp
    rcases List.mem_filter.mp hp with ⟨_, hne⟩
    simp only [bne_iff_ne] at hne
    simpa using hne
  simp [lookupNonce, h]

/-- C7: the Discord OAuth callback enforces the CSRF nonce: with no OAuth
error and a present code and decodable state, it proceeds to the token
exchange iff the state's nonce is in the oauthStates store and unexpired; a
nonce issued by /api/auth/discord at time t validates iff now is within its
10-minute lifetime; and a callback that proceeded deletes the nonce, so a
second callback carrying the same nonce is redirected with invalid_state. -/
theorem C7_callback_csrf (states : List (String × Int)) (c : String)
    (sd : StateData) (now : Int) :
    ((discordCallback states none (some c) (.valid sd) now).fst.proceeds = true ↔
      ∃ exp, lookupNonce states sd.nonce = some exp ∧ ¬ exp < now) ∧
    (∀ t, (discordCallback (issueOauthState states sd.nonce t) none (some c)
        (.valid sd) now).fst.proceeds = true ↔ ¬ t + 10 * 60 * 1000 < now) ∧
    ((discordCallback states none (some c) (.valid sd) now).fst.proceeds = true →
      ∀ c2 now2,
        (discordCallback (discordCallback states none (some c) (.valid sd) now).snd
            none (some c2) (.valid sd) now2).fst =
          .redirectError "invalid_state") := by
  refine ⟨?_, ?_, ?_⟩
  · rcases h : lookupNonce states sd.nonce with _ | exp
    · simp [discordCallback, h, CallbackOutcome.proceeds]
    · by_cases hlt : exp < now
      · simp [discordCallback, h, hlt, CallbackOutcome.proceeds]
      · simp [discordCallback, h, hlt, CallbackOutcome.proceeds]
        omega
  · intro t
    have hl : lookupNonce (issueOauthState states sd.nonce t) sd.nonce =
        some (t + 10 * 60 * 1000) := by
      simp [lookupNonce, issueOauthState]
    by_cases hlt : t + 600000 < now
    · simp [discordCallback, hl, hlt, CallbackOutcome.proceeds]
    · simp [discordCallback, hl, hlt, CallbackOutcome.proceeds]
  · intro hpr c2 now2
    rcases h : lookupNonce states sd.nonce with _ | exp
    · simp [discordCallback, h, CallbackOutcome.proceeds] at hpr
    · by_cases hlt : exp < now
      · simp [discordCallback, h, hlt, CallbackOutcome.proceeds] at hpr
      · simp [discordCallback, h, hlt, lookupNonce_deleteNonce]

/-- C7 witness: on a store holding nonce "n1" expiring at 600000, a callback
at 1000 proceeds (600000 is not before 1000), and re-running the callback on
the resulting store with the same nonce redirects with invalid_state. -/
theorem C7_callback_csrf_witness :
    ((discordCallback [("n1", (600000 : Int))] none (some "code")
        (.valid { nonce := "n1", invite := none, returnTo := none }) 1000).fst.proceeds = true ↔
      ∃ exp, lookupNonce [("n1", (600000 : Int))] "n1" = some exp ∧
        ¬ exp < (1000 : Int)) ∧
    (discordCallback
        (discordCallback [("n1", (600000 : Int))] none (some "code")
          (.valid { nonce := "n1", invite := none, returnTo := none }) 1000).snd
        none (some "code2")
        (.valid { nonce := "n1", invite := none, returnTo := none }) 2000).fst =
      .redirectError "invalid_state" := by
  refine ⟨?_, ?_⟩
  · exact (C7_callback_csrf [("n1", (600000 : Int))] "code"
      { nonce := "n1", invite := none, returnTo := none } 1000).1
  · exact (C7_callback_csrf [("n1", (600000 : Int))] "code"
      { nonce := "n1", invite := none, returnTo := none } 1000).2.2
      (by decide) "code2" 2000

end RoModerate

namespace RoModerate

/-- Every shift row carrying the ended shift's id, after updateShiftEnd, is
completed with the recorded end time. -/
lemma shifts_after_end (shifts : List Shift) (id : String) (now : Int) :
    ∀ x ∈ updateShiftEnd shifts id now, x.id = id →
      x.status = "completed" ∧ x.endTime = some now := by
  intro x hx hid
  simp only [updateShiftEnd, List.mem_map] at hx
  obtain ⟨x0, _, rfl⟩ := hx
  by_cases h : x0.id = id
  · simp [h]
  · have hbeq : (x0.id == id) = false := by simpa using h
    simp only [hbeq, Bool.false_eq_true, if_false] at hid
    exact absurd hid h

/-- C8: for a member or owner of an existing server, POST /api/shifts/end
with no active shift answers 404 and changes nothing; with an active shift
it answers 200, records endTime := now and status := "completed" on that
shift, and broadcasts the duration now - startTime. -/
theorem C8_shift_end_completes (s : ShiftState) (requesterId sid : String)
    (now : Int) (server : Server)
    (hS : getServerS s sid = some server)
    (hAuth : server.ownerId = requesterId ∨ isServerMember s requesterId sid = true) :
    (getActiveShiftByUserId s requesterId sid = none →
      shiftsEnd s requesterId (some sid) now =
        ({ httpStatus := 404, duration := none }, s)) ∧
    (∀ sh, getActiveShiftByUserId s requesterId sid = some sh →
      sh.status = "active" ∧
      (shiftsEnd s requesterId (some sid) now).fst =
        { httpStatus := 200, duration := some (now - sh.startTime) } ∧
      ∀ x ∈ (shiftsEnd s requesterId (some sid) now).snd.shifts,
        x.id = sh.id → x.status = "completed" ∧ x.endTime = some now) := by
  have hcond : (!(server.ownerId == requesterId) &&
      !(isServerMember s requesterId sid)) = false := by
    rcases hAuth with h | h <;> simp [h]
  refine ⟨?_, ?_⟩
  · intro hnone
    simp [shiftsEnd, hS, hcond, hnone]
  · intro sh hsh
    have hsh' : s.shifts.find? (fun x => x.userId == requesterId
        && x.serverId == sid && x.status == "active") = some sh := hsh
    have hp := List.find?_some hsh'
    have hstatus : sh.status = "active" := by
      simp only [Bool.and_eq_true, beq_iff_eq] at hp
      exact hp.2
    refine ⟨hstatus, ?_, ?_⟩
    · simp [shiftsEnd, hS, hcond, hsh]
    · intro x hx hid
      simp only [shiftsEnd, hS, hcond, Bool.false_eq_true, if_false, hsh] at hx
      exact shifts_after_end s.shifts sh.id now x hx hid

/-- C8 witness: on a concrete store, ending with no active shift answers 404
unchanged; ending the active shift started at 100 at time 250 answers 200
with duration 150 and completes the row. -/
theorem C8_shift_end_completes_witness :
    (shiftsEnd exEmptyShiftState "owner" (some "s1") 250 =
      ({ httpStatus := 404, duration := none }, exEmptyShiftState)) ∧
    (exActiveShift.status = "active" ∧
      (shiftsEnd exShiftState "owner" (some "s1") 250).fst =
        { httpStatus := 200, duration := some (250 - exActiveShift.startTime) } ∧
      ∀ x ∈ (shiftsEnd exShiftState "owner" (some "s1") 250).snd.shifts,
        x.id = exActiveShift.id →
          x.status = "completed" ∧ x.endTime = some (250 : Int)) := by
  refine ⟨?_, ?_⟩
  · exact (C8_shift_end_completes exEmptyShiftState "owner" "s1" 250 exServer
      (by decide) (Or.inl (by decide))).1 (by decide)
  · exact (C8_shift_end_completes exShiftState "owner" "s1" 250 exServer
      (by decide) (Or.inl (by decide))).2 exActiveShift (by decide)

/-- When a user has no active shift on a server, the active-shift filter
over the store is empty. -/
lemma activeCount_eq_zero_of_none (s : ShiftState) (u sid : String)
    (h : getActiveShiftByUserId s u sid = none) :
    activeCount s.shifts u sid = 0 := by
  simp only [activeCount, List.length_eq_zero]
  rw [List.filter_eq_nil_iff]
  intro a ha
  have hx := List.find?_eq_none.mp h a ha
  simpa using hx

/-- Appending the freshly created shift keeps at most one active shift per
user and server, given the creator had no active shift on that server. -/
lemma activeCount_append_newShift (s : ShiftState)
    (requesterId sid newId : String) (now : Int)
    (hnone : getActiveShiftByUserId s requesterId sid = none)
    (hInv : ∀ u v, activeCount s.shifts u v ≤ 1) :
    ∀ u v, activeCount (s.shifts ++ [newShift newId sid requesterId now]) u v ≤ 1 := by
  intro u v
  unfold activeCount
  rw [List.filter_append, List.length_append]
  by_cases hu : requesterId = u
  · by_cases hv : sid = v
    · subst hu
      subst hv
      have h0 := activeCount_eq_zero_of_none s requesterId sid hnone
      unfold activeCount at h0
      simp [newShift, h0]
    · have hInv' := hInv u v
      unfold activeCount at hInv'
      simpa [newShift, hu, hv] using hInv'
  · have hInv' := hInv u v
    unfold activeCount at hInv'
    simpa [newShift, hu] using hInv'

/-- C10: each user has at most one active shift per server: both start
endpoints refuse with 400 (store unchanged) when the requester already has
an active shift on that server, and both preserve the invariant that every
(user, server) pair has at most one active shift. -/
theorem C10_at_most_one_active_shift (s : ShiftState)
    (requesterId sid newId : String) (now : Int) (server : Server)
    (hS : getServerS s sid = some server)
    (hInv : ∀ u v, activeCount s.shifts u v ≤ 1) :
    (∀ sh, getActiveShiftByUserId s requesterId sid = some sh →
      ((server.ownerId = requesterId ∨ isServerMember s requesterId sid = true) →
        shiftsStart s requesterId (some sid) newId now = (400, s)) ∧
      (server.ownerId = requesterId →
        serverShiftsStart s requesterId sid newId now = (400, s))) ∧
    (∀ u v, activeCount (shiftsStart s requesterId (some sid) newId now).snd.shifts u v ≤ 1) ∧
    (∀ u v, activeCount (serverShiftsStart s requesterId sid newId now).snd.shifts u v ≤ 1) := by
  refine ⟨?_, ?_, ?_⟩
  · intro sh hsh
    constructor
    · intro hAuth
      have hcond : (!(server.ownerId == requesterId) &&
          !(isServerMember s requesterId sid)) = false := by
        rcases hAuth with h | h <;> simp [h]
      simp [shiftsStart, hS, hcond, hsh]
    · intro hOwn
      simp [serverShiftsStart, hS, hOwn, hsh]
  · intro u v
    rcases hact : getActiveShiftByUserId s requesterId sid with _ | sh
    · cases hcond : (!(server.ownerId == requesterId) &&
          !(isServerMember s requesterId sid))
      · simp only [shiftsStart, hS, hcond, Bool.false_eq_true, if_false, hact]
        exact activeCount_append_newShift s requesterId sid newId now hact hInv u v
      · simpa [shiftsStart, hS, hcond] using hInv u v
    · cases hcond : (!(server.ownerId == requesterId) &&
          !(isServerMember s requesterId sid))
      · simpa [shiftsStart, hS, hcond, hact] using hInv u v
      · simpa [shiftsStart, hS, hcond] using hInv u v
  · intro u v
    rcases hact : getActiveShiftByUserId s requesterId sid with _ | sh
    · cases hbne : (server.ownerId != requesterId)
      · simp only [serverShiftsStart, hS, hbne, Bool.false_eq_true, if_false, hact]
        exact activeCount_append_newShift s requesterId sid newId now hact hInv u v
      · simpa [serverShiftsStart, hS, hbne] using hInv u v
    · cases hbne : (server.ownerId != requesterId)
      · simpa [serverShiftsStart, hS, hbne, hact] using hInv u v
      · simpa [serverShiftsStart, hS, hbne] using hInv u v

/-- C10 witness: on the concrete store where "owner" already has the active
shift "sh1" on "s1", both start endpoints answer 400 with the store
unchanged, and the one-active-shift bound holds after the call. -/
theorem C10_at_most_one_active_shift_witness :
    (shiftsStart exShiftState "owner" (some "s1") "sh2" 300 = (400, exShiftState)) ∧
    (serverShiftsStart exShiftState "owner" "s1" "sh2" 300 = (400, exShiftState)) ∧
    activeCount (shiftsStart exShiftState "owner" (some "s1") "sh2" 300).snd.shifts
      "owner" "s1" ≤ 1 := by
  have hInv : ∀ u v, activeCount exShiftState.shifts u v ≤ 1 := by
    intro u v
    simpa [activeCount, exShiftState] using
      List.length_filter_le
        (fun sh => sh.userId == u && sh.serverId == v && sh.status == "active")
        [exActiveShift]
  have h := C10_at_most_one_active_shift exShiftState "owner" "s1" "sh2" 300
    exServer (by decide) hInv
  exact ⟨(h.1 exActiveShift (by decide)).1 (Or.inl (by decide)),
    (h.1 exActiveShift (by decide)).2 (by decide), h.2.1 "owner" "s1"⟩

end RoModerate

namespace RoModerate

/-- Deleting a session token removes it from the map: a later lookup of the
same token finds nothing. -/
lemma lookupSession_deleteSession (sessions : List (String × SessionEntry))
    (tk : String) :
    lookupSession (deleteSession sessions tk) tk = none := by
  have h : (deleteSession sessions tk).find? (fun p => p.fst == tk) = none := by
    rw [List.find?_eq_none]
    intro p hp
    rcases List.mem_filter.mp hp with ⟨_, hne⟩
    simp only [bne_iff_ne] at hne
    simpa using hne
  simp [lookupSession, h]

/-- When the session map yields an entry, a state in which every session
points at an existing user resolves that user: getUser succeeds. -/
lemma getUser_of_lookup (st : SessionState) (tk : String) (entry : SessionEntry)
    (hWF : ∀ p ∈ st.sessions, (getUser st.users p.snd.userId).isSome = true)
    (hl : lookupSession st.sessions tk = some entry) :
    ∃ u, getUser st.users entry.userId = some u := by
  have hl' : (st.sessions.find? (fun p => p.fst == tk)).map Prod.snd = some entry := hl
  obtain ⟨p, hfind, hsnd⟩ := Option.map_eq_some'.mp hl'
  have hWFp := hWF p (List.mem_of_find?_eq_some hfind)
  rw [hsnd] at hWFp
  exact Option.isSome_iff_exists.mp hWFp

/-- C9: on a store whose sessions all point at existing users, requireAuth
answers 401 iff the cookie is absent, unknown to the session map, or past
its expiry; looking up an expired token deletes its entry, so the same
token never authenticates later; and a token stored by createSession at
time t is rejected iff now is past t plus seven days. -/
theorem C9_session_expiry_auth (st : SessionState) (token : Option String)
    (now : Int)
    (hWF : ∀ p ∈ st.sessions, (getUser st.users p.snd.userId).isSome = true) :
    ((requireAuth st token now).fst = .unauthorized401 ↔
      ¬ ∃ tk entry, token = some tk ∧ lookupSession st.sessions tk = some entry ∧
        ¬ entry.expiresAt < now) ∧
    (∀ tk entry, token = some tk → lookupSession st.sessions tk = some entry →
      entry.expiresAt < now →
      lookupSession (requireAuth st token now).snd.sessions tk = none ∧
      ∀ now2, (requireAuth (requireAuth st token now).snd (some tk) now2).fst =
        .unauthorized401) ∧
    (∀ tk uid created, token = some tk →
      lookupSession st.sessions tk = some (createSessionEntry uid created) →
      ((requireAuth st token now).fst = .unauthorized401 ↔
        created + 7 * 24 * 60 * 60 * 1000 < now)) := by
  refine ⟨?_, ?_, ?_⟩
  · rcases token with _ | tk
    · simp [requireAuth, getUserFromSession]
    · rcases hl : lookupSession st.sessions tk with _ | entry
      · simp [requireAuth, getUserFromSession, hl]
      · by_cases hexp : entry.expiresAt < now
        · simp [requireAuth, getUserFromSession, hl, hexp]
        · obtain ⟨u, hu⟩ := getUser_of_lookup st tk entry hWF hl
          simp [requireAuth, getUserFromSession, hl, hexp, hu]
  · intro tk entry htk hl hexp
    subst htk
    have hred : requireAuth st (some tk) now =
        (.unauthorized401, { st with sessions := deleteSession st.sessions tk }) := by
      simp [requireAuth, getUserFromSession, hl, hexp]
    rw [hred]
    refine ⟨lookupSession_deleteSession _ _, ?_⟩
    intro now2
    simp [requireAuth, getUserFromSession, lookupSession_deleteSession]
  · intro tk uid created htk hl
    subst htk
    by_cases hexp : (createSessionEntry uid created).expiresAt < now
    · simp [requireAuth, getUserFromSession, hl, hexp]
      simpa [createSessionEntry] using hexp
    · obtain ⟨u, hu⟩ := getUser_of_lookup st tk (createSessionEntry uid created) hWF hl
      simp [requireAuth, getUserFromSession, hl, hexp, hu]
      simpa [createSessionEntry] using hexp

/-- C9 witness: a concrete token created at 0 is rejected far past its
7-day expiry with its entry deleted (so a later request with it is also
401), and the same token read at time 10 is accepted (401 iff expired is
false there). -/
theorem C9_session_expiry_auth_witness :
    lookupSession (requireAuth exSessionState (some "tok") 999999999999).snd.sessions
      "tok" = none ∧
    (requireAuth (requireAuth exSessionState (some "tok") 999999999999).snd
      (some "tok") 0).fst = .unauthorized401 ∧
    ((requireAuth exSessionState (some "tok") 10).fst = .unauthorized401 ↔
      (0 : Int) + 7 * 24 * 60 * 60 * 1000 < 10) := by
  have h1 := (C9_session_expiry_auth exSessionState (some "tok") 999999999999
    (by decide)).2.1 "tok" (createSessionEntry "u1" 0) rfl (by decide) (by decide)
  have h2 := (C9_session_expiry_auth exSessionState (some "tok") 10
    (by decide)).2.2 "tok" "u1" 0 rfl (by decide)
  exact ⟨h1.1, h1.2 0, h2⟩

end RoModerate
